import Mathlib

/-!
Shallow embedding of `src/train_apex.py` (FloWaveNet distributed training
orchestration script) and proofs of the specification's claims about it.

The script is a linear orchestration routine; external library calls
(PyTorch, Apex) are embedded by their documented observable behaviour:
`torch.save`/`torch.load` as writes/reads of an association-list file store,
`StepLR` by its published learning-rate recurrence, `load_state_dict` by its
strict key-matching contract, and the side-effecting phases of the script as
an event trace.
-/

namespace FloWaveNet

/-- Parsed command-line arguments, one field per `parser.add_argument` call
(src lines 42-59).  `local_rank` is an `int` in argparse and is kept as `Int`;
the counting arguments are kept as `Nat`. -/
structure Args where
  local_rank : Int
  data_path : String
  sample_path : String
  save : String
  load_step : Nat
  log : String
  model_name : String
  epochs : Nat
  batch_size : Nat
  learning_rate : ℚ
  loss : String
  n_layer : Nat
  n_flow : Nat
  n_block : Nat
  cin_channels : Nat
  hidden_channels : Nat
  block_per_split : Nat
  num_workers : Nat
deriving DecidableEq

/-- System environment: `world_size = int(os.environ['WORLD_SIZE'])` (src line 63). -/
structure Env where
  worldSize : Nat
deriving DecidableEq

/-- Embeds `os.path.join` for the relative paths the script builds. -/
def pathJoin (a b : String) : String := a ++ "/" ++ b

/-- Embeds Python's `"{:09d}".format(n)` for a step count: decimal text
left-padded with zeros to at least nine characters. -/
def formatStep9 (n : Nat) : String :=
  let s := toString n
  String.mk (List.replicate (9 - s.length) '0') ++ s

/-- Checkpoint file path, src line 218 / 232:
`os.path.join(args.save, args.model_name, "checkpoint_step{:09d}.pth".format(step))`. -/
def checkpoint_path (args : Args) (step : Nat) : String :=
  pathJoin (pathJoin args.save args.model_name) ("checkpoint_step" ++ formatStep9 step ++ ".pth")

/-- Loss-history file `'{}/{}_train.npy'.format(args.loss, args.model_name)`
(src lines 287, 314). -/
def trainLossNpyPath (args : Args) : String :=
  args.loss ++ "/" ++ args.model_name ++ "_train.npy"

/-- Loss-history file `'{}/{}.npy'.format(args.loss, args.model_name)`
(src lines 288, 315). -/
def evalLossNpyPath (args : Args) : String :=
  args.loss ++ "/" ++ args.model_name ++ ".npy"

/-- Log file `os.path.join(args.log, '%s.txt' % args.model_name)` (src line 322). -/
def logFilePath (args : Args) : String :=
  pathJoin args.log (args.model_name ++ ".txt")

/-- Embeds `torch.mean` of a (flattened, nonempty) tensor of rationals. -/
def mean (l : List ℚ) : ℚ := l.sum / l.length

/-- Embeds `np.min` of a loaded loss history (src line 291); `none` embeds the
`ValueError` numpy raises on an empty array. -/
def npMin : List ℚ → Option ℚ
  | [] => none
  | x :: xs => some (xs.foldl min x)

/-- State of `torch.optim.lr_scheduler.StepLR`, embedded by its published
behaviour: after construction `last_epoch = 0`, each `step()` increments
`last_epoch`, and the learning rate is
`base_lr * gamma ^ (last_epoch // step_size)`. -/
structure StepLRState where
  stepSize : Nat
  gamma : ℚ
  baseLr : ℚ
  lastEpoch : Nat
deriving DecidableEq

/-- Embeds `scheduler.step()` (src line 129). -/
def StepLRState.step (s : StepLRState) : StepLRState :=
  { s with lastEpoch := s.lastEpoch + 1 }

/-- The learning rate the scheduler currently gives the optimizer. -/
def StepLRState.currentLr (s : StepLRState) : ℚ :=
  s.baseLr * s.gamma ^ (s.lastEpoch / s.stepSize)

/-- Embeds src line 264,
`optim.lr_scheduler.StepLR(optimizer, step_size=200000 // world_size, gamma=0.5)`. -/
def schedulerInit (worldSize : Nat) (lr0 : ℚ) : StepLRState :=
  { stepSize := 200000 / worldSize, gamma := 1/2, baseLr := lr0, lastEpoch := 0 }

/-- Opaque payload of `optimizer.state_dict()`: the Adam moment tensors.  Its
internal structure never matters to the script, only that it round-trips. -/
structure AdamState where
  tensors : List ℚ
deriving DecidableEq

/-- A model as the checkpoint logic sees it: the parameter names
`load_state_dict` will insist on, and the current parameter tensors
(`model.state_dict()` returns `params`). -/
structure TModel where
  keys : List String
  params : List (String × Int)
deriving DecidableEq

/-- Embeds `model.load_state_dict(sd)` with strict matching (the default):
succeeds exactly when the state dict carries the model's own parameter names,
otherwise raises `RuntimeError` (embedded as `none`). -/
def load_state_dict (m : TModel) (sd : List (String × Int)) : Option TModel :=
  if sd.map Prod.fst = m.keys then some { m with params := sd } else none

/-- The contents `save_checkpoint` passes to `torch.save` (src lines 221-225). -/
structure Checkpoint where
  state_dict : List (String × Int)
  optimizer : AdamState
  scheduler : StepLRState
  global_step : Nat
  global_epoch : Nat
deriving DecidableEq

/-- The checkpoint files on disk: an association list from path to saved
dictionary; a fresh `torch.save` shadows an older file at the same path. -/
def CkFS : Type := List (String × Checkpoint)

/-- Embeds `save_checkpoint(model, optimizer, scheduler, global_step, global_epoch)`
(src lines 217-225): one `torch.save` of the five pieces of state at
`checkpoint_path args global_step`. -/
def save_checkpoint (args : Args) (fs : CkFS) (model : TModel) (opt : AdamState)
    (sch : StepLRState) (global_step global_epoch : Nat) : CkFS :=
  (checkpoint_path args global_step,
    { state_dict := model.params, optimizer := opt, scheduler := sch,
      global_step := global_step, global_epoch := global_epoch }) :: fs

/-- Key surgery of the `RuntimeError` fallback in `load_checkpoint`
(src lines 244-247): every key loses its first 7 characters (`module.`). -/
def removeModuleKeys (sd : List (String × Int)) : List (String × Int) :=
  sd.map (fun kv => (kv.1.drop 7, kv.2))

/-- Embeds `load_checkpoint(step, model, optimizer, scheduler)` (src lines
228-255).  `torch.load` reads the file at `checkpoint_path args step`;
`model.load_state_dict` is tried on the stored dict and, on `RuntimeError`,
retried with `module.`-stripped keys; then the optimizer state, scheduler
state, `global_step` and `global_epoch` are restored.  `none` embeds an
uncaught exception (missing file, or both load attempts raising). -/
def load_checkpoint (args : Args) (fs : CkFS) (step : Nat) (m : TModel) :
    Option (TModel × AdamState × StepLRState × Nat × Nat) :=
  match List.lookup (checkpoint_path args step) fs with
  | none => none
  | some ck =>
    match load_state_dict m ck.state_dict with
    | some m' => some (m', ck.optimizer, ck.scheduler, ck.global_step, ck.global_epoch)
    | none =>
      match load_state_dict m (removeModuleKeys ck.state_dict) with
      | some m' => some (m', ck.optimizer, ck.scheduler, ck.global_step, ck.global_epoch)
      | none => none

/-- Observable actions of the script, as trace events: the setup phases of the
module body and `__main__`, and the actions inside the epoch loop. -/
inductive Ev where
  | argParse
  | initProcessGroup (worldSize : Nat) (rank : Int)
  | setCudaDevice (rank : Int)
  | ensureDir (path : String)
  | loadDatasets
  | buildSampler
  | buildLoaders
  | buildModel
  | buildOptimizer (lr : ℚ)
  | buildScheduler (stepSize : Nat) (gamma : ℚ)
  | actnormDataInit
  | ampInit (optLevel : String)
  | wrapDDP
  | loadCkpt (step : Nat)
  | raised
  | trainEpoch (epoch : Nat)
  | evaluate (epoch : Nat)
  | saveCkpt (step epoch : Nat)
  | synthesize (epoch : Nat)
  | saveNpy (path : String) (data : List ℚ)
  | appendLog (path : String) (text : String)
  | gcCollect
deriving DecidableEq

/-- The `opt_level` string the script hands `amp.initialize` (src line 276). -/
def ampOptLevel : String := "O0"

/-- A JSON value as `json.dumps` renders it, for the entries the script logs. -/
inductive Jv where
  | s (v : String)
  | i (v : Int)
  | q (v : ℚ)
deriving DecidableEq

/-- Rendering of one JSON value. -/
def Jv.render : Jv → String
  | .s v => "\"" ++ v ++ "\""
  | .i v => toString v
  | .q v => toString v

/-- Embeds `json.dumps` of a dict in insertion order (default separators). -/
def jsonDumps (kvs : List (String × Jv)) : String :=
  "\x7b" ++ String.intercalate ", "
    (kvs.map (fun kv => "\"" ++ kv.1 ++ "\": " ++ kv.2.render)) ++ "\x7d"

/-- Embeds `args._get_kwargs()` (src line 317): the parsed arguments as
(name, value) pairs, sorted by name as argparse's `Namespace` sorts them. -/
def argsKwargs (args : Args) : List (String × Jv) :=
  [("batch_size", .i args.batch_size), ("block_per_split", .i args.block_per_split),
   ("cin_channels", .i args.cin_channels), ("data_path", .s args.data_path),
   ("epochs", .i args.epochs), ("hidden_channels", .i args.hidden_channels),
   ("learning_rate", .q args.learning_rate), ("load_step", .i args.load_step),
   ("local_rank", .i args.local_rank), ("log", .s args.log), ("loss", .s args.loss),
   ("model_name", .s args.model_name), ("n_block", .i args.n_block),
   ("n_flow", .i args.n_flow), ("n_layer", .i args.n_layer),
   ("num_workers", .i args.num_workers), ("sample_path", .s args.sample_path),
   ("save", .s args.save)]

/-- The JSON line the epoch loop logs (src lines 317-323): all parsed
arguments plus `training_loss`, `eval_loss` and `epoch`, in that order. -/
def stateLine (args : Args) (training_loss eval_loss : ℚ) (epoch : Nat) : String :=
  jsonDumps (argsKwargs args ++
    [("training_loss", .q training_loss), ("eval_loss", .q eval_loss), ("epoch", .i epoch)])

/-- The directories the rank-0 process ensures at startup, in source order
(src lines 68-82). -/
def mkdirPaths (args : Args) : List String :=
  [args.log, args.save, args.loss, args.sample_path,
   pathJoin args.sample_path args.model_name,
   pathJoin args.save args.model_name]

/-- Module-level setup (src lines 40-98): argument parsing, process-group
initialization from the `WORLD_SIZE` environment variable and `--local_rank`,
device selection, rank-0 directory creation, then dataset, sampler and loader
construction. -/
def setupTrace (args : Args) (env : Env) : List Ev :=
  [Ev.argParse, Ev.initProcessGroup env.worldSize args.local_rank,
   Ev.setCudaDevice args.local_rank]
  ++ (if args.local_rank = 0 then (mkdirPaths args).map Ev.ensureDir else [])
  ++ [Ev.loadDatasets, Ev.buildSampler, Ev.buildLoaders]

/-- Mutable loop state of `__main__` (src lines 279-291): `test_loss`,
the two in-memory loss histories and `global_step`. -/
structure MainState where
  test_loss : ℚ
  list_train_loss : List ℚ
  list_loss : List ℚ
  global_step : Nat
deriving DecidableEq

/-- One iteration of the epoch loop (src lines 293-325) for epoch `e`:
`train` (which consumes `nb` batches, advancing `global_step`), then, on a
rank above zero, only `gc.collect()`; on the rank-0 process: `evaluate`, a
checkpoint save and a sample synthesis exactly when the evaluation loss
improves on `test_loss`, appending to both histories, two `np.save`s, one
appended log line and `gc.collect()`.  `losses e` is the pair of this epoch's
training and evaluation losses, produced by the black-box model. -/
def epochIter (args : Args) (nb : Nat) (losses : Nat → ℚ × ℚ) (e : Nat) (st : MainState) :
    MainState × List Ev :=
  let gs' := st.global_step + nb
  if args.local_rank > 0 then
    ({ st with global_step := gs' }, [Ev.trainEpoch e, Ev.gcCollect])
  else
    let tl := (losses e).1
    let el := (losses e).2
    let improved := st.test_loss > el
    let tloss' := if improved then el else st.test_loss
    let lt' := st.list_train_loss ++ [tl]
    let ll' := st.list_loss ++ [el]
    ({ test_loss := tloss', list_train_loss := lt', list_loss := ll', global_step := gs' },
     [Ev.trainEpoch e, Ev.evaluate e]
       ++ (if improved then [Ev.saveCkpt gs' e, Ev.synthesize e] else [])
       ++ [Ev.saveNpy (trainLossNpyPath args) lt', Ev.saveNpy (evalLossNpyPath args) ll',
           Ev.appendLog (logFilePath args) (stateLine args tl el e ++ "\n"), Ev.gcCollect])

/-- The epoch loop from epoch `first`, for `count` iterations
(`for epoch in range(global_epoch + 1, args.epochs + 1)`, src line 293). -/
def loopTrace (args : Args) (nb : Nat) (losses : Nat → ℚ × ℚ) :
    Nat → Nat → MainState → List Ev
  | _, 0, _ => []
  | first, Nat.succ count, st =>
    (epochIter args nb losses first st).2
      ++ loopTrace args nb losses (first + 1) count (epochIter args nb losses first st).1

/-- The numpy files on disk (loss histories), keyed by path. -/
def NpyFS : Type := List (String × List ℚ)

/-- Initialization of the loop state (src lines 279-291).  Fresh start
(`load_step == 0`): empty histories and `test_loss = 100.0`.  Resume: the
checkpoint at `load_step` is read, both `.npy` histories are loaded and
truncated to the restored `global_epoch`, and `test_loss = np.min(list_loss)`.
Returns the state and the restored `global_epoch`; `none` embeds an uncaught
exception (missing file, or `np.min` of an empty history). -/
def initState (args : Args) (fsCk : CkFS) (fsNpy : NpyFS) : Option (MainState × Nat) :=
  if args.load_step = 0 then
    some ({ test_loss := 100, list_train_loss := [], list_loss := [], global_step := 0 }, 0)
  else
    match List.lookup (checkpoint_path args args.load_step) fsCk with
    | none => none
    | some ck =>
      match List.lookup (trainLossNpyPath args) fsNpy,
            List.lookup (evalLossNpyPath args) fsNpy with
      | some lt0, some ll0 =>
        let lt := lt0.take ck.global_epoch
        let ll := ll0.take ck.global_epoch
        match npMin ll with
        | none => none
        | some m =>
          some ({ test_loss := m, list_train_loss := lt, list_loss := ll,
                  global_step := ck.global_step }, ck.global_epoch)
      | _, _ => none

/-- Everything `__main__` does before the epoch loop, plus the module-level
setup (src lines 40-98 and 258-291): model, optimizer and scheduler
construction, ActNorm data-dependent initialization on a fresh start,
`amp.initialize` at `opt_level="O0"`, the `DistributedDataParallel` wrap, and
the checkpoint load exactly when `load_step` is nonzero. -/
def mainPre (args : Args) (env : Env) : List Ev :=
  setupTrace args env
  ++ [Ev.buildModel, Ev.buildOptimizer args.learning_rate,
      Ev.buildScheduler (200000 / env.worldSize) (1/2)]
  ++ (if args.load_step = 0 then [Ev.actnormDataInit] else [])
  ++ [Ev.ampInit ampOptLevel, Ev.wrapDDP]
  ++ (if args.load_step = 0 then [] else [Ev.loadCkpt args.load_step])

/-- The epoch loop as `__main__` runs it: from the restored (or zero)
`global_epoch + 1` through `args.epochs` inclusive. -/
def mainLoop (args : Args) (fsCk : CkFS) (fsNpy : NpyFS) (nb : Nat)
    (losses : Nat → ℚ × ℚ) : List Ev :=
  match initState args fsCk fsNpy with
  | none => [Ev.raised]
  | some (st, ge) => loopTrace args nb losses (ge + 1) (args.epochs - ge) st

/-- The whole script as a trace (src lines 40-325). -/
def mainTrace (args : Args) (env : Env) (fsCk : CkFS) (fsNpy : NpyFS) (nb : Nat)
    (losses : Nat → ℚ × ℚ) : List Ev :=
  mainPre args env ++ mainLoop args fsCk fsNpy nb losses

/-- Actions of the `train` function (src lines 115-166), at batch granularity. -/
inductive TEv where
  | setEpoch (epoch : Nat)
  | schedulerStep
  | incGlobalStep
  | zeroGrad
  | forward
  | scaledBackward (loss : ℚ)
  | clipMasterGradNorm (maxNorm : ℚ)
  | optimizerStep
deriving DecidableEq

/-- The training loss of one batch (src lines 136-139):
`-(torch.mean(log_p) + torch.mean(logdet))`. -/
def batchLoss (log_p logdet : List ℚ) : ℚ := -(mean log_p + mean logdet)

/-- One iteration of the batch loop (src lines 127-162): `scheduler.step()`,
`global_step += 1`, `optimizer.zero_grad()`, the forward pass, the backward
pass on the `amp.scale_loss`-scaled loss, `clip_grad_norm_` of the AMP master
parameters at max norm 1.0, then `optimizer.step()`.  `out` is the pair of
flattened `log_p` and `logdet` tensors the model returned for this batch. -/
def batchTrace (out : List ℚ × List ℚ) : List TEv :=
  [TEv.schedulerStep, TEv.incGlobalStep, TEv.zeroGrad, TEv.forward,
   TEv.scaledBackward (batchLoss out.1 out.2), TEv.clipMasterGradNorm 1,
   TEv.optimizerStep]

/-- The batch loop over batches `i, i+1, ...` for `n` batches;
`outs b` is the model output on batch `b`. -/
def batchesTrace (outs : Nat → List ℚ × List ℚ) : Nat → Nat → List TEv
  | _, 0 => []
  | i, Nat.succ n => batchTrace (outs i) ++ batchesTrace outs (i + 1) n

/-- The `train` function for one epoch (src lines 115-166):
`train_sampler.set_epoch(epoch)` first, then the batch loop over the `nb`
batches of the epoch's loader. -/
def trainTrace (epoch : Nat) (outs : Nat → List ℚ × List ℚ) (nb : Nat) : List TEv :=
  TEv.setEpoch epoch :: batchesTrace outs 0 nb

/-- The files the epoch loop writes besides checkpoints: numpy histories
(overwritten by `np.save`) and text logs (opened with mode `'a'`). -/
structure Files where
  npy : List (String × List ℚ)
  text : List (String × String)
deriving DecidableEq

/-- Effect of one trace event on those files: `np.save` replaces the file,
`open(..., 'a').write` appends to it (creating it empty first when absent). -/
def applyEv (f : Files) : Ev → Files
  | Ev.saveNpy p d => { f with npy := (p, d) :: f.npy }
  | Ev.appendLog p s => { f with text := (p, (List.lookup p f.text).getD "" ++ s) :: f.text }
  | _ => f

/-- Effect of a trace on the files. -/
def applyEvs (f : Files) (evs : List Ev) : Files := evs.foldl applyEv f

/-- Modelled from the spec: the `DistributedSampler` the training loader uses
is an external library component (not in src); per the spec each worker
processes a shard of the data.  The sampler gives the worker of rank `r` the
elements at positions congruent to `r` modulo the world size of the
epoch-seeded index sequence, tagged here with their positions. -/
def taggedShard (data : List Nat) (worldSize rank : Nat) : List (Nat × Nat) :=
  (List.enum data).filter (fun p => p.1 % worldSize == rank)

/-- The shard itself: the data elements the worker of rank `rank` iterates. -/
def samplerShard (data : List Nat) (worldSize rank : Nat) : List Nat :=
  (taggedShard data worldSize rank).map Prod.snd

/-- Modelled from the spec: the Apex AMP library (not in src) performs
mixed-precision training — reduced-precision arithmetic with full-precision
master parameters and loss scaling — at opt levels `O1` and `O2`; `O0` runs
pure FP32 and `O3` pure FP16. -/
def mixedPrecisionOptLevels : List String := ["O1", "O2"]

/-- Whether an AMP opt level enables mixed-precision training. -/
def optLevelUsesMixedPrecision (l : String) : Bool := mixedPrecisionOptLevels.contains l

/-- The epoch of a `trainEpoch` event. -/
def trainEpochTag : Ev → Option Nat
  | Ev.trainEpoch e => some e
  | _ => none

/-- The path of an `ensureDir` event. -/
def ensureDirTag : Ev → Option String
  | Ev.ensureDir p => some p
  | _ => none

/-- Whether an event is the checkpoint save of epoch `e`. -/
def isSaveAt (e : Nat) : Ev → Bool
  | Ev.saveCkpt _ e' => e' == e
  | _ => false

/-- Whether an event is the evaluation of epoch `e`. -/
def isEvalAt (e : Nat) : Ev → Bool
  | Ev.evaluate e' => e' == e
  | _ => false

/-- Whether an event is the sample synthesis of epoch `e`. -/
def isSynthAt (e : Nat) : Ev → Bool
  | Ev.synthesize e' => e' == e
  | _ => false

/-- Whether an event is a checkpoint load. -/
def isLoadCkptEv : Ev → Bool
  | Ev.loadCkpt _ => true
  | _ => false

/-- Whether an event is a directory creation. -/
def isEnsureDirEv : Ev → Bool
  | Ev.ensureDir _ => true
  | _ => false

/-- The pipeline stage an event belongs to, numbered in the order the source
performs the stages; the whole trace is monotone in this numbering. -/
def phase : Ev → Nat
  | Ev.argParse => 0
  | Ev.initProcessGroup _ _ => 1
  | Ev.setCudaDevice _ => 2
  | Ev.ensureDir _ => 3
  | Ev.loadDatasets => 4
  | Ev.buildSampler => 5
  | Ev.buildLoaders => 6
  | Ev.buildModel => 7
  | Ev.buildOptimizer _ => 8
  | Ev.buildScheduler _ _ => 9
  | Ev.actnormDataInit => 10
  | Ev.ampInit _ => 11
  | Ev.wrapDDP => 12
  | Ev.loadCkpt _ => 13
  | Ev.raised => 14
  | Ev.trainEpoch _ => 15
  | Ev.evaluate _ => 15
  | Ev.saveCkpt _ _ => 15
  | Ev.synthesize _ => 15
  | Ev.saveNpy _ _ => 15
  | Ev.appendLog _ _ => 15
  | Ev.gcCollect => 15

/-- The best (lowest) evaluation loss among `init` and the evaluation losses
of epochs `first, ..., first + i - 1`. -/
def bestBefore (init : ℚ) (losses : Nat → ℚ × ℚ) (first i : Nat) : ℚ :=
  (List.range' first i).foldl (fun a e => min a (losses e).2) init

/-- Whether a batch-level event is a `scheduler.step()`. -/
def isSchedStep : TEv → Bool
  | TEv.schedulerStep => true
  | _ => false

/-- Whether a batch-level event is an `optimizer.step()`. -/
def isOptStep : TEv → Bool
  | TEv.optimizerStep => true
  | _ => false

/-! ### Concrete inputs used by witnesses -/

/-- Concrete model outputs for every batch. -/
def outsW : Nat → List ℚ × List ℚ := fun _ => ([1, 2], [3])

/-- A concrete argument record (rank 0, resuming from step 2). -/
def argsW : Args :=
  { local_rank := 0, data_path := "d", sample_path := "sp", save := "p",
    load_step := 2, log := "lg", model_name := "mn", epochs := 4,
    batch_size := 2, learning_rate := 1, loss := "ls", n_layer := 2,
    n_flow := 6, n_block := 8, cin_channels := 80, hidden_channels := 256,
    block_per_split := 4, num_workers := 2 }

/-- The same arguments on a fresh start. -/
def argsW0 : Args := { argsW with load_step := 0 }

/-- The same arguments on a process of rank 1. -/
def argsW1 : Args := { argsW with local_rank := 1 }

/-- A concrete scheduler state. -/
def schedW : StepLRState := { stepSize := 50000, gamma := 3, baseLr := 5, lastEpoch := 9 }

/-- A model with a bare parameter name. -/
def mW : TModel := { keys := ["w"], params := [] }

/-- A model whose parameter name carries the `module.` prefix. -/
def mW2 : TModel := { keys := ["module.w"], params := [("module.w", 3)] }

/-- A checkpoint whose state-dict keys carry the `module.` prefix. -/
def ckW : Checkpoint :=
  { state_dict := [("module.w", 5)], optimizer := ⟨[1]⟩, scheduler := schedW,
    global_step := 2, global_epoch := 7 }

/-- A checkpoint store holding `ckW` at the path for step 2. -/
def fsCkW : CkFS := [(checkpoint_path argsW 2, ckW)]

/-- Loss-history files for `argsW`. -/
def fsNpyW : NpyFS := [(trainLossNpyPath argsW, [5, 6]), (evalLossNpyPath argsW, [7, 8])]

/-- Constant per-epoch losses. -/
def lossesW : Nat → ℚ × ℚ := fun _ => (3, 9)

/-! ## Helper lemmas -/

theorem epochIter_trainTag (args : Args) (nb : Nat) (losses : Nat → ℚ × ℚ) (e : Nat)
    (st : MainState) :
    ((epochIter args nb losses e st).2).filterMap trainEpochTag = [e] := by
  by_cases h : args.local_rank > 0 <;>
    by_cases h2 : st.test_loss > (losses e).2 <;>
      simp [epochIter, h, h2, trainEpochTag]

theorem loopTrace_trainTag (args : Args) (nb : Nat) (losses : Nat → ℚ × ℚ) :
    ∀ (count first : Nat) (st : MainState),
      (loopTrace args nb losses first count st).filterMap trainEpochTag
        = List.range' first count := by
  intro count
  induction count with
  | zero => intro first st; simp [loopTrace]
  | succ n ih =>
    intro first st
    simp only [loopTrace, List.filterMap_append, epochIter_trainTag, ih, List.range'_succ]
    rfl

theorem mainPre_trainTag (args : Args) (env : Env) :
    (mainPre args env).filterMap trainEpochTag = [] := by
  by_cases h : args.load_step = 0 <;> by_cases h2 : args.local_rank = 0 <;>
    simp [mainPre, setupTrace, h, h2, trainEpochTag, mkdirPaths]

/-! ## Claims -/

/-- C1: `save_checkpoint` persists the model weights, the optimizer state, the
scheduler state, `global_step` and `global_epoch` at the path
`args.save/args.model_name/checkpoint_step{global_step:09d}.pth`;
`load_checkpoint` at the same step restores exactly those five pieces of
state; and on resume with `--load_step s` the epoch loop runs the epochs
`global_epoch + 1` through `args.epochs` inclusive. -/
theorem save_load_checkpoint_roundtrip
    (args : Args) (env : Env) (fs : CkFS) (fsNpy : NpyFS) (nb : Nat)
    (losses : Nat → ℚ × ℚ) (m m2 : TModel) (opt : AdamState) (sch : StepLRState)
    (s ge : Nat) (lt0 ll0 : List ℚ) (mm : ℚ)
    (hkeys : m2.keys = m.params.map Prod.fst)
    (hload : args.load_step = s) (hs : 0 < s)
    (hlt : List.lookup (trainLossNpyPath args) fsNpy = some lt0)
    (hll : List.lookup (evalLossNpyPath args) fsNpy = some ll0)
    (hmin : npMin (ll0.take ge) = some mm) :
    List.lookup (checkpoint_path args s) (save_checkpoint args fs m opt sch s ge)
      = some { state_dict := m.params, optimizer := opt, scheduler := sch,
               global_step := s, global_epoch := ge }
    ∧ load_checkpoint args (save_checkpoint args fs m opt sch s ge) s m2
      = some ({ keys := m2.keys, params := m.params }, opt, sch, s, ge)
    ∧ (mainTrace args env (save_checkpoint args fs m opt sch s ge) fsNpy nb losses).filterMap
        trainEpochTag = List.range' (ge + 1) (args.epochs - ge) := by
  have hne : ¬ args.load_step = 0 := by omega
  have hfind : List.lookup (checkpoint_path args s) (save_checkpoint args fs m opt sch s ge)
      = some { state_dict := m.params, optimizer := opt, scheduler := sch,
               global_step := s, global_epoch := ge } := by
    simp [save_checkpoint, List.lookup]
  have hsne : ¬ s = 0 := by omega
  refine ⟨hfind, ?_, ?_⟩
  · simp [load_checkpoint, hfind, load_state_dict, hkeys]
  · simp only [mainTrace, List.filterMap_append, mainPre_trainTag, List.nil_append,
      mainLoop, initState, hne, hsne, if_false, hload, hfind, hlt, hll, hmin]
    exact loopTrace_trainTag args nb losses (args.epochs - ge) (ge + 1) _

/-- C1 witness: a concrete save at step 2, epoch 1 round-trips, and the resumed
loop covers epochs 2 through `epochs`. -/
theorem save_load_checkpoint_roundtrip_witness :
    List.lookup (checkpoint_path argsW 2) (save_checkpoint argsW [] mW2 ⟨[1]⟩ schedW 2 1)
      = some { state_dict := mW2.params, optimizer := ⟨[1]⟩, scheduler := schedW,
               global_step := 2, global_epoch := 1 }
    ∧ load_checkpoint argsW (save_checkpoint argsW [] mW2 ⟨[1]⟩ schedW 2 1) 2 mW2
      = some ({ keys := mW2.keys, params := mW2.params }, ⟨[1]⟩, schedW, 2, 1)
    ∧ (mainTrace argsW ⟨4⟩ (save_checkpoint argsW [] mW2 ⟨[1]⟩ schedW 2 1) fsNpyW 3
        lossesW).filterMap trainEpochTag = List.range' (1 + 1) (argsW.epochs - 1) :=
  save_load_checkpoint_roundtrip argsW ⟨4⟩ [] fsNpyW 3 lossesW mW2 mW2 ⟨[1]⟩ schedW
    2 1 [5, 6] [7, 8] 7 (by decide) rfl (by decide) (by decide) (by decide) (by decide)

/-- C9: `load_checkpoint` first attempts `model.load_state_dict` on the stored
state dict; on a `RuntimeError` it retries after removing the first 7
characters (the `module.` prefix) of every key; in both the normal and the
fallback path the optimizer state, scheduler state, `global_step` and
`global_epoch` are then restored from the checkpoint. -/
theorem load_checkpoint_fallback (args : Args) (fs : CkFS) (step : Nat) (m : TModel)
    (ck : Checkpoint)
    (hck : List.lookup (checkpoint_path args step) fs = some ck) :
    (∀ m', load_state_dict m ck.state_dict = some m' →
        load_checkpoint args fs step m
          = some (m', ck.optimizer, ck.scheduler, ck.global_step, ck.global_epoch))
    ∧ (load_state_dict m ck.state_dict = none →
        ∀ m', load_state_dict m (removeModuleKeys ck.state_dict) = some m' →
          load_checkpoint args fs step m
            = some (m', ck.optimizer, ck.scheduler, ck.global_step, ck.global_epoch))
    ∧ removeModuleKeys ck.state_dict
        = ck.state_dict.map (fun kv => (kv.1.drop 7, kv.2)) := by
  refine ⟨?_, ?_, rfl⟩
  · intro m' h
    simp [load_checkpoint, hck, h]
  · intro h m' h2
    simp [load_checkpoint, hck, h, h2]

/-- C9 witness: a checkpoint whose keys carry the `module.` prefix loads into a
model with bare keys through the fallback path, restoring the other four
pieces of state. -/
theorem load_checkpoint_fallback_witness :
    (∀ m', load_state_dict mW ckW.state_dict = some m' →
        load_checkpoint argsW fsCkW 2 mW
          = some (m', ckW.optimizer, ckW.scheduler, ckW.global_step, ckW.global_epoch))
    ∧ (load_state_dict mW ckW.state_dict = none →
        ∀ m', load_state_dict mW (removeModuleKeys ckW.state_dict) = some m' →
          load_checkpoint argsW fsCkW 2 mW
            = some (m', ckW.optimizer, ckW.scheduler, ckW.global_step, ckW.global_epoch))
    ∧ removeModuleKeys ckW.state_dict
        = ckW.state_dict.map (fun kv => (kv.1.drop 7, kv.2)) :=
  load_checkpoint_fallback argsW fsCkW 2 mW ckW (by decide)

/-- C3 counterexample: the claim that training uses mixed-precision arithmetic
as configured at AMP initialization is false — the script initializes AMP at
`opt_level "O0"`, which is not a mixed-precision opt level. -/
theorem amp_opt_level_not_mixed :
    ¬ optLevelUsesMixedPrecision ampOptLevel = true := by decide

/-- C10 and C4 helper: the scheduler after `n` steps. -/
theorem steplr_iterate (s : StepLRState) (n : Nat) :
    StepLRState.step^[n] s = { s with lastEpoch := s.lastEpoch + n } := by
  induction n with
  | zero => rfl
  | succ k ih =>
    rw [Function.iterate_succ_apply', ih]
    rfl

theorem batchesTrace_countP_sched (outs : Nat → List ℚ × List ℚ) :
    ∀ (n i : Nat), (batchesTrace outs i n).countP isSchedStep = n := by
  intro n
  induction n with
  | zero => intro i; rfl
  | succ m ih =>
    intro i
    simp only [batchesTrace, List.countP_append, ih]
    simp [batchTrace, List.countP_cons, isSchedStep]
    omega

theorem batchesTrace_drop (outs : Nat → List ℚ × List ℚ) :
    ∀ (j n i : Nat), j < n →
      (batchesTrace outs i n).drop (7 * j)
        = batchTrace (outs (i + j)) ++ batchesTrace outs (i + j + 1) (n - j - 1) := by
  intro j
  induction j with
  | zero =>
    intro n i h
    match n, h with
    | Nat.succ m, _ => simp [batchesTrace]
  | succ k ih =>
    intro n i h
    match n, h with
    | Nat.succ m, h =>
      have hk : k < m := by omega
      have h7 : 7 * (k + 1) = 7 + 7 * k := by ring
      have e1 : i + 1 + k = i + (k + 1) := by omega
      have e3 : m - k - 1 = Nat.succ m - (k + 1) - 1 := by omega
      calc (batchesTrace outs i (Nat.succ m)).drop (7 * (k + 1))
          = ((batchTrace (outs i) ++ batchesTrace outs (i + 1) m)).drop (7 + 7 * k) := by
            rw [h7]; simp only [batchesTrace]
        _ = (batchesTrace outs (i + 1) m).drop (7 * k) := by
            rw [← List.drop_drop, List.drop_left' (show (batchTrace (outs i)).length = 7 from rfl)]
        _ = batchTrace (outs (i + 1 + k)) ++ batchesTrace outs (i + 1 + k + 1) (m - k - 1) :=
            ih m (i + 1) hk
        _ = batchTrace (outs (i + (k + 1)))
              ++ batchesTrace outs (i + (k + 1) + 1) (Nat.succ m - (k + 1) - 1) := by
            rw [e1, e3]

/-- C10: the scheduler is constructed with `step_size = 200000 // world_size`
and `gamma = 0.5`; every batch performs exactly one `scheduler.step()`, as the
batch's first action (in particular before `optimizer.step()`, which is its
last); and after `n` training batches the learning rate is
`lr0 * (1/2) ^ (n / (200000 / world_size))`, i.e. it is halved after every
`floor(200000 / world_size)` batches. -/
theorem steplr_construction_and_schedule (ws : Nat) (lr0 : ℚ) (n : Nat)
    (out : List ℚ × List ℚ) (e nb : Nat) (outs : Nat → List ℚ × List ℚ) :
    (schedulerInit ws lr0).stepSize = 200000 / ws
    ∧ (schedulerInit ws lr0).gamma = 1/2
    ∧ (StepLRState.step^[n] (schedulerInit ws lr0)).currentLr
        = lr0 * (1/2) ^ (n / (200000 / ws))
    ∧ (batchTrace out).countP isSchedStep = 1
    ∧ (batchTrace out).head? = some TEv.schedulerStep
    ∧ (batchTrace out).countP isOptStep = 1
    ∧ (batchTrace out).getLast? = some TEv.optimizerStep
    ∧ (trainTrace e outs nb).countP isSchedStep = nb := by
  refine ⟨rfl, rfl, ?_, ?_, rfl, ?_, rfl, ?_⟩
  · rw [steplr_iterate]
    simp [StepLRState.currentLr, schedulerInit]
  · simp [batchTrace, List.countP_cons, isSchedStep]
  · simp [batchTrace, List.countP_cons, isOptStep]
  · simp only [trainTrace, List.countP_cons, batchesTrace_countP_sched]
    simp [isSchedStep]

/-- C4: every batch of every epoch performs, in this order: `scheduler.step()`,
the `global_step` increment, `optimizer.zero_grad()`, the forward pass, the
backward pass on the AMP-scaled loss `-(mean(log_p) + mean(logdet))`, the
gradient-norm clip of the AMP master parameters at 1.0, and only then
`optimizer.step()`. -/
theorem train_batch_order (e : Nat) (outs : Nat → List ℚ × List ℚ) (nb j : Nat)
    (hj : j < nb) :
    ((trainTrace e outs nb).drop (1 + 7 * j)).take 7
      = [TEv.schedulerStep, TEv.incGlobalStep, TEv.zeroGrad, TEv.forward,
         TEv.scaledBackward (-(mean (outs j).1 + mean (outs j).2)),
         TEv.clipMasterGradNorm 1, TEv.optimizerStep] := by
  have h0 : (trainTrace e outs nb).drop (1 + 7 * j)
      = (batchesTrace outs 0 nb).drop (7 * j) := by
    simp only [trainTrace, Nat.add_comm 1 (7 * j), List.drop_succ_cons]
  rw [h0, batchesTrace_drop outs j nb 0 hj,
    List.take_left' (show (batchTrace (outs (0 + j))).length = 7 from rfl)]
  simp [batchTrace, batchLoss, Nat.zero_add]

/-- C4 witness: the first batch of a one-batch epoch, on concrete model
outputs. -/
theorem train_batch_order_witness :
    ((trainTrace 1 outsW 1).drop (1 + 7 * 0)).take 7
      = [TEv.schedulerStep, TEv.incGlobalStep, TEv.zeroGrad, TEv.forward,
         TEv.scaledBackward (-(mean (outsW 0).1 + mean (outsW 0).2)),
         TEv.clipMasterGradNorm 1, TEv.optimizerStep] :=
  train_batch_order 1 outsW 1 0 (by decide)

/-- C7 helper: the two loss-history files are distinct. -/
theorem npy_paths_ne (args : Args) : trainLossNpyPath args ≠ evalLossNpyPath args := by
  intro h
  have h2 := congrArg String.data h
  simp only [trainLossNpyPath, evalLossNpyPath, String.data_append] at h2
  have h3 := List.append_cancel_left h2
  exact absurd h3 (by decide)

/-- C7: at the end of every rank-0 epoch the training and evaluation losses are
appended to the in-memory histories, both histories are saved (as whole files)
to `{loss}/{model_name}_train.npy` and `{loss}/{model_name}.npy`, and one JSON
line with all parsed arguments plus `training_loss`, `eval_loss` and `epoch` is
appended — not overwritten — to `{log}/{model_name}.txt`; these writes close
the epoch's events. -/
theorem loss_history_persistence (args : Args) (nb : Nat) (losses : Nat → ℚ × ℚ)
    (e : Nat) (st : MainState) (files : Files)
    (h : args.local_rank = 0) :
    (epochIter args nb losses e st).1.list_train_loss = st.list_train_loss ++ [(losses e).1]
    ∧ (epochIter args nb losses e st).1.list_loss = st.list_loss ++ [(losses e).2]
    ∧ List.lookup (trainLossNpyPath args) (applyEvs files (epochIter args nb losses e st).2).npy
        = some (st.list_train_loss ++ [(losses e).1])
    ∧ List.lookup (evalLossNpyPath args) (applyEvs files (epochIter args nb losses e st).2).npy
        = some (st.list_loss ++ [(losses e).2])
    ∧ List.lookup (logFilePath args) (applyEvs files (epochIter args nb losses e st).2).text
        = some ((List.lookup (logFilePath args) files.text).getD ""
            ++ (stateLine args (losses e).1 (losses e).2 e ++ "\n"))
    ∧ ∃ p, (epochIter args nb losses e st).2
        = p ++ [Ev.saveNpy (trainLossNpyPath args) (st.list_train_loss ++ [(losses e).1]),
                Ev.saveNpy (evalLossNpyPath args) (st.list_loss ++ [(losses e).2]),
                Ev.appendLog (logFilePath args)
                  (stateLine args (losses e).1 (losses e).2 e ++ "\n"),
                Ev.gcCollect] := by
  have hrank : ¬ args.local_rank > 0 := by omega
  have hne : (trainLossNpyPath args == evalLossNpyPath args) = false := by
    exact beq_eq_false_iff_ne.mpr (npy_paths_ne args)
  by_cases himp : st.test_loss > (losses e).2
  · refine ⟨?_, ?_, ?_, ?_, ?_,
      ⟨[Ev.trainEpoch e, Ev.evaluate e, Ev.saveCkpt (st.global_step + nb) e,
        Ev.synthesize e], ?_⟩⟩ <;>
      simp [epochIter, hrank, himp, applyEvs, applyEv, List.lookup, hne]
  · refine ⟨?_, ?_, ?_, ?_, ?_, ⟨[Ev.trainEpoch e, Ev.evaluate e], ?_⟩⟩ <;>
      simp [epochIter, hrank, himp, applyEvs, applyEv, List.lookup, hne]

/-- C7 witness: one concrete rank-0 epoch. -/
theorem loss_history_persistence_witness :
    (epochIter argsW 3 lossesW 1 ⟨100, [], [], 0⟩).1.list_train_loss = [] ++ [(lossesW 1).1]
    ∧ (epochIter argsW 3 lossesW 1 ⟨100, [], [], 0⟩).1.list_loss = [] ++ [(lossesW 1).2]
    ∧ List.lookup (trainLossNpyPath argsW)
        (applyEvs ⟨[], []⟩ (epochIter argsW 3 lossesW 1 ⟨100, [], [], 0⟩).2).npy
        = some ([] ++ [(lossesW 1).1])
    ∧ List.lookup (evalLossNpyPath argsW)
        (applyEvs ⟨[], []⟩ (epochIter argsW 3 lossesW 1 ⟨100, [], [], 0⟩).2).npy
        = some ([] ++ [(lossesW 1).2])
    ∧ List.lookup (logFilePath argsW)
        (applyEvs ⟨[], []⟩ (epochIter argsW 3 lossesW 1 ⟨100, [], [], 0⟩).2).text
        = some ((List.lookup (logFilePath argsW) (Files.text ⟨[], []⟩)).getD ""
            ++ (stateLine argsW (lossesW 1).1 (lossesW 1).2 1 ++ "\n"))
    ∧ ∃ p, (epochIter argsW 3 lossesW 1 ⟨100, [], [], 0⟩).2
        = p ++ [Ev.saveNpy (trainLossNpyPath argsW) ([] ++ [(lossesW 1).1]),
                Ev.saveNpy (evalLossNpyPath argsW) ([] ++ [(lossesW 1).2]),
                Ev.appendLog (logFilePath argsW)
                  (stateLine argsW (lossesW 1).1 (lossesW 1).2 1 ++ "\n"),
                Ev.gcCollect] :=
  loss_history_persistence argsW 3 lossesW 1 ⟨100, [], [], 0⟩ ⟨[], []⟩ rfl

/-- C8 helper: on a process of positive rank, the whole epoch loop is just
training followed by garbage collection, epoch after epoch. -/
theorem loopTrace_rank_pos (args : Args) (nb : Nat) (losses : Nat → ℚ × ℚ)
    (h : 0 < args.local_rank) :
    ∀ (count first : Nat) (st : MainState),
      loopTrace args nb losses first count st
        = ((List.range' first count).map (fun e => [Ev.trainEpoch e, Ev.gcCollect])).flatten := by
  intro count
  induction count with
  | zero => intro first st; simp [loopTrace]
  | succ m ih =>
    intro first st
    simp only [loopTrace, List.range'_succ, List.map_cons, List.flatten_cons, epochIter, h,
      if_pos, ih]

/-- C8: for every process with `local_rank > 0`, every epoch iteration performs
only training followed by garbage collection — never an evaluation, a
checkpoint save, a synthesis, or a loss/log write — and startup creates no
directories; only the rank-0 process creates the log, checkpoint, loss and
sample directories. -/
theorem rank_gating_invariant (args : Args) (env : Env) (nb : Nat)
    (losses : Nat → ℚ × ℚ) (count first : Nat) (st : MainState) :
    (0 < args.local_rank →
      loopTrace args nb losses first count st
        = ((List.range' first count).map (fun e => [Ev.trainEpoch e, Ev.gcCollect])).flatten
      ∧ (∀ ev ∈ loopTrace args nb losses first count st,
          ev = Ev.gcCollect ∨ ∃ e, ev = Ev.trainEpoch e)
      ∧ (setupTrace args env).countP isEnsureDirEv = 0)
    ∧ (args.local_rank = 0 →
        (setupTrace args env).filterMap ensureDirTag = mkdirPaths args) := by
  constructor
  · intro h
    have hshape := loopTrace_rank_pos args nb losses h count first st
    refine ⟨hshape, ?_, ?_⟩
    · intro ev hev
      rw [hshape] at hev
      simp only [List.mem_flatten, List.mem_map] at hev
      obtain ⟨l, ⟨e, _, rfl⟩, hl⟩ := hev
      simp only [List.mem_cons, List.mem_singleton] at hl
      rcases hl with rfl | rfl | hl
      · exact Or.inr ⟨e, rfl⟩
      · exact Or.inl rfl
      · exact absurd hl (List.not_mem_nil _)
    · have hne : ¬ args.local_rank = 0 := by omega
      simp [setupTrace, hne, isEnsureDirEv, List.countP_cons]
  · intro h
    simp [setupTrace, h, mkdirPaths, ensureDirTag]

/-- C8 witness: the invariant at a rank-1 process and the rank-0 directory
creation, at concrete inputs. -/
theorem rank_gating_invariant_witness :
    (0 < argsW1.local_rank →
      loopTrace argsW1 3 lossesW 1 2 ⟨100, [], [], 0⟩
        = ((List.range' 1 2).map (fun e => [Ev.trainEpoch e, Ev.gcCollect])).flatten
      ∧ (∀ ev ∈ loopTrace argsW1 3 lossesW 1 2 ⟨100, [], [], 0⟩,
          ev = Ev.gcCollect ∨ ∃ e, ev = Ev.trainEpoch e)
      ∧ (setupTrace argsW1 ⟨4⟩).countP isEnsureDirEv = 0)
    ∧ (argsW1.local_rank = 0 →
        (setupTrace argsW1 ⟨4⟩).filterMap ensureDirTag = mkdirPaths argsW1) :=
  rank_gating_invariant argsW1 ⟨4⟩ 3 lossesW 2 1 ⟨100, [], [], 0⟩

/-- C2 helper: `test_loss` after a rank-0 epoch is the running minimum. -/
theorem epochIter_test_loss (args : Args) (nb : Nat) (losses : Nat → ℚ × ℚ)
    (ep : Nat) (st : MainState) (h : args.local_rank = 0) :
    (epochIter args nb losses ep st).1.test_loss = min st.test_loss (losses ep).2 := by
  have hrank : ¬ args.local_rank > 0 := by omega
  by_cases himp : st.test_loss > (losses ep).2
  · simp [epochIter, hrank, himp, min_eq_right (le_of_lt himp)]
  · simp [epochIter, hrank, himp, min_eq_left (le_of_not_lt himp)]

theorem epochIter_countP_eval (args : Args) (nb : Nat) (losses : Nat → ℚ × ℚ)
    (h : args.local_rank = 0) (e ep : Nat) (st : MainState) :
    ((epochIter args nb losses ep st).2).countP (isEvalAt e)
      = if e = ep then 1 else 0 := by
  have hrank : ¬ args.local_rank > 0 := by omega
  by_cases he : e = ep
  · subst he
    by_cases himp : st.test_loss > (losses e).2 <;>
      simp [epochIter, hrank, himp, isEvalAt, List.countP_cons]
  · have he2 : (ep == e) = false := beq_eq_false_iff_ne.mpr (fun hh => he hh.symm)
    by_cases himp : st.test_loss > (losses ep).2 <;>
      simp [epochIter, hrank, himp, isEvalAt, List.countP_cons, he2, he]

theorem epochIter_countP_save (args : Args) (nb : Nat) (losses : Nat → ℚ × ℚ)
    (h : args.local_rank = 0) (e ep : Nat) (st : MainState) :
    ((epochIter args nb losses ep st).2).countP (isSaveAt e)
      = if e = ep ∧ st.test_loss > (losses ep).2 then 1 else 0 := by
  have hrank : ¬ args.local_rank > 0 := by omega
  by_cases he : e = ep
  · subst he
    by_cases himp : st.test_loss > (losses e).2 <;>
      simp [epochIter, hrank, himp, isSaveAt, List.countP_cons]
  · have he2 : (ep == e) = false := beq_eq_false_iff_ne.mpr (fun hh => he hh.symm)
    by_cases himp : st.test_loss > (losses ep).2 <;>
      simp [epochIter, hrank, himp, isSaveAt, List.countP_cons, he2, he]

theorem epochIter_countP_synth (args : Args) (nb : Nat) (losses : Nat → ℚ × ℚ)
    (h : args.local_rank = 0) (e ep : Nat) (st : MainState) :
    ((epochIter args nb losses ep st).2).countP (isSynthAt e)
      = if e = ep ∧ st.test_loss > (losses ep).2 then 1 else 0 := by
  have hrank : ¬ args.local_rank > 0 := by omega
  by_cases he : e = ep
  · subst he
    by_cases himp : st.test_loss > (losses e).2 <;>
      simp [epochIter, hrank, himp, isSynthAt, List.countP_cons]
  · have he2 : (ep == e) = false := beq_eq_false_iff_ne.mpr (fun hh => he hh.symm)
    by_cases himp : st.test_loss > (losses ep).2 <;>
      simp [epochIter, hrank, himp, isSynthAt, List.countP_cons, he2, he]

/-- C2 helper: an event predicate tagged with an epoch below the loop's first
epoch never counts. -/
theorem loopTrace_countP_notin (args : Args) (nb : Nat) (losses : Nat → ℚ × ℚ)
    (p : Nat → Ev → Bool) (e : Nat)
    (hch : ∀ ep st, ¬ e = ep → ((epochIter args nb losses ep st).2).countP (p e) = 0) :
    ∀ (count first : Nat) (st : MainState), e < first →
      (loopTrace args nb losses first count st).countP (p e) = 0 := by
  intro count
  induction count with
  | zero => intro first st h; simp [loopTrace]
  | succ m ih =>
    intro first st h
    simp only [loopTrace, List.countP_append]
    rw [hch first st (by omega), ih (first + 1) _ (by omega)]

theorem bestBefore_zero (init : ℚ) (losses : Nat → ℚ × ℚ) (first : Nat) :
    bestBefore init losses first 0 = init := rfl

theorem bestBefore_succ (init : ℚ) (losses : Nat → ℚ × ℚ) (first k : Nat) :
    bestBefore init losses first (k + 1)
      = bestBefore (min init (losses first).2) losses (first + 1) k := by
  simp [bestBefore, List.range'_succ]

/-- C2 helper: occurrence count of an improvement-gated, epoch-tagged event
across the loop, for the epoch `first + i`. -/
theorem loopTrace_countP_gated (args : Args) (nb : Nat) (losses : Nat → ℚ × ℚ)
    (h : args.local_rank = 0) (p : Nat → Ev → Bool)
    (hch : ∀ e ep st, ((epochIter args nb losses ep st).2).countP (p e)
        = if e = ep ∧ st.test_loss > (losses ep).2 then 1 else 0) :
    ∀ (count i first : Nat) (st : MainState), i < count →
      (loopTrace args nb losses first count st).countP (p (first + i))
        = if (losses (first + i)).2 < bestBefore st.test_loss losses first i
          then 1 else 0 := by
  intro count
  induction count with
  | zero => intro i first st h2; exact absurd h2 (Nat.not_lt_zero i)
  | succ m ih =>
    intro i first st h2
    simp only [loopTrace, List.countP_append]
    cases i with
    | zero =>
      rw [hch (first + 0) first st,
        loopTrace_countP_notin args nb losses p (first + 0)
          (fun ep st' hne => by rw [hch]; exact if_neg (fun hc => hne hc.1))
          m (first + 1) _ (by omega)]
      simp [bestBefore_zero]
    | succ k =>
      have hne : ¬ (first + (k + 1)) = first := by omega
      rw [hch (first + (k + 1)) first st]
      have ih2 := ih k (first + 1) (epochIter args nb losses first st).1 (by omega)
      have harith : first + 1 + k = first + (k + 1) := by omega
      rw [harith] at ih2
      rw [ih2, epochIter_test_loss args nb losses first st h, ← bestBefore_succ]
      simp [hne]

/-- C2 helper: every loop epoch is evaluated exactly once (rank 0). -/
theorem loopTrace_countP_eval (args : Args) (nb : Nat) (losses : Nat → ℚ × ℚ)
    (h : args.local_rank = 0) :
    ∀ (count i first : Nat) (st : MainState), i < count →
      (loopTrace args nb losses first count st).countP (isEvalAt (first + i)) = 1 := by
  intro count
  induction count with
  | zero => intro i first st h2; exact absurd h2 (Nat.not_lt_zero i)
  | succ m ih =>
    intro i first st h2
    simp only [loopTrace, List.countP_append]
    cases i with
    | zero =>
      rw [epochIter_countP_eval args nb losses h (first + 0) first st,
        loopTrace_countP_notin args nb losses (fun e => isEvalAt e) (first + 0)
          (fun ep st' hne => by
            rw [epochIter_countP_eval args nb losses h]; exact if_neg hne)
          m (first + 1) _ (by omega)]
      simp
    | succ k =>
      have hne : ¬ (first + (k + 1)) = first := by omega
      rw [epochIter_countP_eval args nb losses h (first + (k + 1)) first st]
      have ih2 := ih k (first + 1) (epochIter args nb losses first st).1 (by omega)
      have harith : first + 1 + k = first + (k + 1) := by omega
      rw [harith] at ih2
      rw [ih2]
      simp [hne]

/-- C2: in every epoch of the loop the rank-0 process evaluates on the test
set; a checkpoint is saved and a sample synthesized in that epoch exactly when
the epoch's evaluation loss is strictly lower than the best seen so far (the
running minimum of `test_loss`, initialized to 100.0 on a fresh start and to
the minimum of the loaded, truncated loss history on resume); synthesis
happens exactly when a save does. -/
theorem eval_save_synth_gating (args : Args) (nb : Nat) (losses : Nat → ℚ × ℚ)
    (count first i : Nat) (st : MainState) (fsCk : CkFS) (fsNpy : NpyFS)
    (h : args.local_rank = 0) (hi : i < count) :
    (loopTrace args nb losses first count st).countP (isEvalAt (first + i)) = 1
    ∧ (loopTrace args nb losses first count st).countP (isSaveAt (first + i))
        = (if (losses (first + i)).2 < bestBefore st.test_loss losses first i
           then 1 else 0)
    ∧ (loopTrace args nb losses first count st).countP (isSynthAt (first + i))
        = (loopTrace args nb losses first count st).countP (isSaveAt (first + i))
    ∧ (args.load_step = 0 →
        initState args fsCk fsNpy
          = some ({ test_loss := 100, list_train_loss := [], list_loss := [],
                    global_step := 0 }, 0))
    ∧ (∀ (ck : Checkpoint) (lt0 ll0 : List ℚ) (m : ℚ), ¬ args.load_step = 0 →
        List.lookup (checkpoint_path args args.load_step) fsCk = some ck →
        List.lookup (trainLossNpyPath args) fsNpy = some lt0 →
        List.lookup (evalLossNpyPath args) fsNpy = some ll0 →
        npMin (ll0.take ck.global_epoch) = some m →
        initState args fsCk fsNpy
          = some ({ test_loss := m, list_train_loss := lt0.take ck.global_epoch,
                    list_loss := ll0.take ck.global_epoch,
                    global_step := ck.global_step }, ck.global_epoch)) := by
  refine ⟨loopTrace_countP_eval args nb losses h count i first st hi,
    loopTrace_countP_gated args nb losses h isSaveAt
      (epochIter_countP_save args nb losses h) count i first st hi, ?_, ?_, ?_⟩
  · rw [loopTrace_countP_gated args nb losses h isSaveAt
      (epochIter_countP_save args nb losses h) count i first st hi,
      loopTrace_countP_gated args nb losses h isSynthAt
        (epochIter_countP_synth args nb losses h) count i first st hi]
  · intro h0
    simp [initState, h0]
  · intro ck lt0 ll0 m h0 hck hlt hll hmin
    simp [initState, h0, hck, hlt, hll, hmin]

/-- C2 witness: the gating at a concrete resumed run. -/
theorem eval_save_synth_gating_witness :
    (loopTrace argsW 3 lossesW 1 2 ⟨100, [], [], 0⟩).countP (isEvalAt (1 + 0)) = 1
    ∧ (loopTrace argsW 3 lossesW 1 2 ⟨100, [], [], 0⟩).countP (isSaveAt (1 + 0))
        = (if (lossesW (1 + 0)).2 < bestBefore (100 : ℚ) lossesW 1 0 then 1 else 0)
    ∧ (loopTrace argsW 3 lossesW 1 2 ⟨100, [], [], 0⟩).countP (isSynthAt (1 + 0))
        = (loopTrace argsW 3 lossesW 1 2 ⟨100, [], [], 0⟩).countP (isSaveAt (1 + 0))
    ∧ (argsW.load_step = 0 →
        initState argsW fsCkW fsNpyW
          = some ({ test_loss := 100, list_train_loss := [], list_loss := [],
                    global_step := 0 }, 0))
    ∧ (∀ (ck : Checkpoint) (lt0 ll0 : List ℚ) (m : ℚ), ¬ argsW.load_step = 0 →
        List.lookup (checkpoint_path argsW argsW.load_step) fsCkW = some ck →
        List.lookup (trainLossNpyPath argsW) fsNpyW = some lt0 →
        List.lookup (evalLossNpyPath argsW) fsNpyW = some ll0 →
        npMin (ll0.take ck.global_epoch) = some m →
        initState argsW fsCkW fsNpyW
          = some ({ test_loss := m, list_train_loss := lt0.take ck.global_epoch,
                    list_loss := ll0.take ck.global_epoch,
                    global_step := ck.global_step }, ck.global_epoch)) :=
  eval_save_synth_gating argsW 3 lossesW 2 1 0 ⟨100, [], [], 0⟩ fsCkW fsNpyW rfl
    (by decide)

/-- C5 helper: every event of an epoch iteration is a loop-stage event. -/
theorem epochIter_phase (args : Args) (nb : Nat) (losses : Nat → ℚ × ℚ)
    (ep : Nat) (st : MainState) :
    ∀ ev ∈ (epochIter args nb losses ep st).2, phase ev = 15 := by
  intro ev hev
  have hall : ((epochIter args nb losses ep st).2).all (fun x => phase x == 15) = true := by
    by_cases hrank : args.local_rank > 0 <;>
      by_cases himp : st.test_loss > (losses ep).2 <;>
        simp [epochIter, hrank, himp, phase]
  simpa using List.all_eq_true.mp hall ev hev

theorem loopTrace_phase (args : Args) (nb : Nat) (losses : Nat → ℚ × ℚ) :
    ∀ (count first : Nat) (st : MainState),
      ∀ ev ∈ loopTrace args nb losses first count st, phase ev = 15 := by
  intro count
  induction count with
  | zero => intro first st ev hev; simp [loopTrace] at hev
  | succ m ih =>
    intro first st ev hev
    simp only [loopTrace, List.mem_append] at hev
    rcases hev with hev | hev
    · exact epochIter_phase args nb losses first st ev hev
    · exact ih (first + 1) _ ev hev

/-- C5 helper: the pre-loop part of the trace is phase-sorted. -/
theorem mainPre_phase_sorted (args : Args) (env : Env) :
    List.Sorted (· ≤ ·) ((mainPre args env).map phase) := by
  by_cases h1 : args.load_step = 0 <;> by_cases h2 : args.local_rank = 0 <;>
    simp [mainPre, setupTrace, mkdirPaths, h1, h2, phase, List.Sorted]

/-- C5 helper: pre-loop events live in phases 0-13. -/
theorem mainPre_phase_bound (args : Args) (env : Env) :
    ∀ x ∈ (mainPre args env).map phase, x ≤ 13 := by
  by_cases h1 : args.load_step = 0 <;> by_cases h2 : args.local_rank = 0 <;>
    simp [mainPre, setupTrace, mkdirPaths, h1, h2, phase]

/-- C5 helper: the loop part of the trace is phase-sorted. -/
theorem mainLoop_phase_sorted (args : Args) (fsCk : CkFS) (fsNpy : NpyFS) (nb : Nat)
    (losses : Nat → ℚ × ℚ) :
    List.Sorted (· ≤ ·) ((mainLoop args fsCk fsNpy nb losses).map phase) := by
  unfold mainLoop
  cases hinit : initState args fsCk fsNpy with
  | none => simp
  | some p =>
    obtain ⟨st, ge⟩ := p
    refine List.pairwise_of_forall_mem_list ?_
    intro a ha b hb
    simp only [List.mem_map] at ha hb
    obtain ⟨ev1, hm1, rfl⟩ := ha
    obtain ⟨ev2, hm2, rfl⟩ := hb
    rw [loopTrace_phase args nb losses _ _ _ ev1 hm1,
      loopTrace_phase args nb losses _ _ _ ev2 hm2]

/-- C5 helper: loop-part events live in phases 14-15. -/
theorem mainLoop_phase_bound (args : Args) (fsCk : CkFS) (fsNpy : NpyFS) (nb : Nat)
    (losses : Nat → ℚ × ℚ) :
    ∀ x ∈ (mainLoop args fsCk fsNpy nb losses).map phase, 14 ≤ x := by
  intro x hx
  simp only [List.mem_map] at hx
  obtain ⟨ev, hev, rfl⟩ := hx
  unfold mainLoop at hev
  cases hinit : initState args fsCk fsNpy with
  | none =>
    rw [hinit] at hev
    simp at hev
    subst hev
    simp [phase]
  | some p =>
    rw [hinit] at hev
    obtain ⟨st, ge⟩ := p
    rw [loopTrace_phase args nb losses _ _ _ ev hev]
    omega

/-- C5 helper: the loop part performs no checkpoint load. -/
theorem mainLoop_no_loadCkpt (args : Args) (fsCk : CkFS) (fsNpy : NpyFS) (nb : Nat)
    (losses : Nat → ℚ × ℚ) :
    (mainLoop args fsCk fsNpy nb losses).countP isLoadCkptEv = 0 := by
  rw [List.countP_eq_zero]
  intro ev hev hp
  have h13 : phase ev = 13 := by
    cases ev <;> first
      | rfl
      | simp [isLoadCkptEv] at hp
  unfold mainLoop at hev
  cases hinit : initState args fsCk fsNpy with
  | none =>
    rw [hinit] at hev
    simp at hev
    subst hev
    simp [phase] at h13
  | some p =>
    rw [hinit] at hev
    obtain ⟨st, ge⟩ := p
    have := loopTrace_phase args nb losses _ _ _ ev hev
    omega

/-- C5 helper: the pre-loop trace loads a checkpoint exactly when
`load_step` is nonzero. -/
theorem mainPre_countP_loadCkpt (args : Args) (env : Env) :
    (mainPre args env).countP isLoadCkptEv = if args.load_step = 0 then 0 else 1 := by
  by_cases h1 : args.load_step = 0 <;> by_cases h2 : args.local_rank = 0 <;>
    simp [mainPre, setupTrace, mkdirPaths, h1, h2, isLoadCkptEv, List.countP_cons,
      List.countP_append]

/-- C5: the script is linear: argument parsing, then process-group setup with
`world_size` from the `WORLD_SIZE` environment and rank from `--local_rank`
followed by device selection, then dataset/loader construction, then
model/optimizer/scheduler construction, then a checkpoint resume exactly when
`--load_step` is positive, then the epoch loop over epochs `global_epoch + 1`
through `args.epochs` inclusive, with loss persistence and logging at the end
of each rank-0 iteration; the stage number never decreases along the trace. -/
theorem orchestration_linear_order (args : Args) (env : Env) (fsCk : CkFS)
    (fsNpy : NpyFS) (nb : Nat) (losses : Nat → ℚ × ℚ) (st0 : MainState) (ge : Nat)
    (hinit : initState args fsCk fsNpy = some (st0, ge)) :
    List.Sorted (· ≤ ·) ((mainTrace args env fsCk fsNpy nb losses).map phase)
    ∧ (mainTrace args env fsCk fsNpy nb losses).take 3
        = [Ev.argParse, Ev.initProcessGroup env.worldSize args.local_rank,
           Ev.setCudaDevice args.local_rank]
    ∧ (mainTrace args env fsCk fsNpy nb losses).countP isLoadCkptEv
        = (if args.load_step = 0 then 0 else 1)
    ∧ (mainTrace args env fsCk fsNpy nb losses).filterMap trainEpochTag
        = List.range' (ge + 1) (args.epochs - ge)
    ∧ (args.local_rank = 0 → ∀ (e : Nat) (st : MainState), ∃ p,
        (epochIter args nb losses e st).2
          = p ++ [Ev.saveNpy (trainLossNpyPath args) (st.list_train_loss ++ [(losses e).1]),
                  Ev.saveNpy (evalLossNpyPath args) (st.list_loss ++ [(losses e).2]),
                  Ev.appendLog (logFilePath args)
                    (stateLine args (losses e).1 (losses e).2 e ++ "\n"),
                  Ev.gcCollect]) := by
  refine ⟨?_, ?_, ?_, ?_, ?_⟩
  · rw [mainTrace, List.map_append]
    refine List.pairwise_append.mpr
      ⟨mainPre_phase_sorted args env, mainLoop_phase_sorted args fsCk fsNpy nb losses, ?_⟩
    intro a ha b hb
    have hb1 := mainPre_phase_bound args env a ha
    have hb2 := mainLoop_phase_bound args fsCk fsNpy nb losses b hb
    omega
  · simp [mainTrace, mainPre, setupTrace]
  · rw [mainTrace, List.countP_append, mainPre_countP_loadCkpt,
      mainLoop_no_loadCkpt, Nat.add_zero]
  · simp only [mainTrace, List.filterMap_append, mainPre_trainTag, List.nil_append,
      mainLoop, hinit]
    exact loopTrace_trainTag args nb losses _ _ _
  · intro h0 e st
    have hrank : ¬ args.local_rank > 0 := by omega
    refine ⟨if st.test_loss > (losses e).2
        then [Ev.trainEpoch e, Ev.evaluate e, Ev.saveCkpt (st.global_step + nb) e,
              Ev.synthesize e]
        else [Ev.trainEpoch e, Ev.evaluate e], ?_⟩
    by_cases himp : st.test_loss > (losses e).2 <;> simp [epochIter, hrank, himp]

/-- C5 witness: the linear order at a concrete resumed run. -/
theorem orchestration_linear_order_witness :
    List.Sorted (· ≤ ·) ((mainTrace argsW ⟨4⟩ fsCkW fsNpyW 3 lossesW).map phase)
    ∧ (mainTrace argsW ⟨4⟩ fsCkW fsNpyW 3 lossesW).take 3
        = [Ev.argParse, Ev.initProcessGroup (Env.worldSize ⟨4⟩) argsW.local_rank,
           Ev.setCudaDevice argsW.local_rank]
    ∧ (mainTrace argsW ⟨4⟩ fsCkW fsNpyW 3 lossesW).countP isLoadCkptEv
        = (if argsW.load_step = 0 then 0 else 1)
    ∧ (mainTrace argsW ⟨4⟩ fsCkW fsNpyW 3 lossesW).filterMap trainEpochTag
        = List.range' (7 + 1) (argsW.epochs - 7)
    ∧ (argsW.local_rank = 0 → ∀ (e : Nat) (st : MainState), ∃ p,
        (epochIter argsW 3 lossesW e st).2
          = p ++ [Ev.saveNpy (trainLossNpyPath argsW) (st.list_train_loss ++ [(lossesW e).1]),
                  Ev.saveNpy (evalLossNpyPath argsW) (st.list_loss ++ [(lossesW e).2]),
                  Ev.appendLog (logFilePath argsW)
                    (stateLine argsW (lossesW e).1 (lossesW e).2 e ++ "\n"),
                  Ev.gcCollect]) :=
  orchestration_linear_order argsW ⟨4⟩ fsCkW fsNpyW 3 lossesW
    ⟨7, [5, 6], [7, 8], 2⟩ 7 (by decide)

/-- C6: the training data is wrapped in a `DistributedSampler` — each worker
iterates a rank-determined shard of the (position-tagged) data, the shards are
position-disjoint and cover every element — `train` re-seeds the sampler with
the epoch number as its first action, and the model is wrapped in
`DistributedDataParallel` before any training epoch runs. -/
theorem distributed_data_parallel_sharding (args : Args) (env : Env) (fsCk : CkFS)
    (fsNpy : NpyFS) (nb : Nat) (losses : Nat → ℚ × ℚ) (epoch : Nat)
    (outs : Nat → List ℚ × List ℚ) (nbb : Nat)
    (data : List Nat) (ws r : Nat) (p : Nat × Nat) :
    (∃ l1 l2, mainTrace args env fsCk fsNpy nb losses = l1 ++ Ev.wrapDDP :: l2
        ∧ ∀ e, Ev.trainEpoch e ∉ l1)
    ∧ (trainTrace epoch outs nbb).head? = some (TEv.setEpoch epoch)
    ∧ (p ∈ taggedShard data ws r → r = p.1 % ws ∧ p ∈ List.enum data)
    ∧ (0 < ws → ∀ j (hj : j < data.length),
        (j, data.get ⟨j, hj⟩) ∈ taggedShard data ws (j % ws))
    ∧ (∀ x ∈ samplerShard data ws r, x ∈ data) := by
  refine ⟨?_, rfl, ?_, ?_, ?_⟩
  · refine ⟨setupTrace args env
        ++ [Ev.buildModel, Ev.buildOptimizer args.learning_rate,
            Ev.buildScheduler (200000 / env.worldSize) (1/2)]
        ++ (if args.load_step = 0 then [Ev.actnormDataInit] else [])
        ++ [Ev.ampInit ampOptLevel],
      (if args.load_step = 0 then [] else [Ev.loadCkpt args.load_step])
        ++ mainLoop args fsCk fsNpy nb losses, ?_, ?_⟩
    · simp [mainTrace, mainPre, List.append_assoc]
    · intro e hmem
      have hpre : Ev.trainEpoch e ∈ mainPre args env := by
        have hsplit : mainPre args env
            = (setupTrace args env
                ++ [Ev.buildModel, Ev.buildOptimizer args.learning_rate,
                    Ev.buildScheduler (200000 / env.worldSize) (1/2)]
                ++ (if args.load_step = 0 then [Ev.actnormDataInit] else [])
                ++ [Ev.ampInit ampOptLevel])
              ++ (Ev.wrapDDP
                  :: (if args.load_step = 0 then [] else [Ev.loadCkpt args.load_step])) := by
          simp [mainPre, List.append_assoc]
        rw [hsplit]
        exact List.mem_append_left _ hmem
      have hb := mainPre_phase_bound args env (phase (Ev.trainEpoch e))
        (List.mem_map_of_mem phase hpre)
      simp [phase] at hb
  · intro hp
    have h2 := List.mem_filter.mp hp
    refine ⟨?_, h2.1⟩
    have h3 := h2.2
    simp only [beq_iff_eq] at h3
    exact h3.symm
  · intro hws j hj
    refine List.mem_filter.mpr ⟨?_, by simp⟩
    have hlen : j < (List.enum data).length := by
      simpa [List.enum, List.enumFrom_length] using hj
    have hget : (List.enum data).get ⟨j, hlen⟩ = (j, data.get ⟨j, hj⟩) := by
      simp [List.enum, List.get_eq_getElem, List.getElem_enumFrom]
    rw [← hget]
    exact List.get_mem _ _ _
  · intro x hx
    simp only [samplerShard, List.mem_map] at hx
    obtain ⟨q, hq, rfl⟩ := hx
    have hmem := (List.mem_filter.mp hq).1
    obtain ⟨i, hi⟩ := List.mem_iff_getElem?.mp hmem
    rw [List.enum, List.getElem?_enumFrom] at hi
    cases hd : data[i]? with
    | none => rw [hd] at hi; simp at hi
    | some a =>
      rw [hd] at hi
      have hq2 : q = (0 + i, a) := by simpa [eq_comm] using hi
      rw [hq2]
      exact List.getElem?_mem hd

/-- C3 (amended): the script initializes the model and optimizer with the AMP
library, but at `opt_level "O0"`, pure full precision: the configuration does
not enable mixed-precision arithmetic or loss scaling. -/
theorem amp_init_runs_at_O0 :
    ampOptLevel = "O0" ∧ optLevelUsesMixedPrecision ampOptLevel = false
    ∧ ∀ (args : Args) (env : Env) (fsCk : CkFS) (fsNpy : NpyFS) (nb : Nat)
        (losses : Nat → ℚ × ℚ),
        Ev.ampInit ampOptLevel ∈ mainTrace args env fsCk fsNpy nb losses := by
  refine ⟨rfl, by decide, ?_⟩
  intro args env fsCk fsNpy nb losses
  simp [mainTrace, mainPre]

end FloWaveNet
